import Mathlib

set_option maxRecDepth 4000

/-!
# Verification of the user-authentication core (FastAPI hexagonal template)

Shallow embedding of the repository's Account Authority (class User in
src/domain/user/user.py), its credential store interface, the SHA-256
password digest from hashlib, the JWT issue/verify lifecycle from PyJWT
(modelled at the level of the library's contract), the login HTTP handlers
(src/app/auth/handlers.py) and the generic SQLAlchemy repository
(src/infra/base_repository.py).

Machine words are Nat with explicit reduction modulo 2^32; stateful
operations pass the store explicitly and return it next to an Except
result; fallible code returns Except.
-/

/-! ## Bytes and UTF-8 (str.encode) -/

/-- UTF-8 encoding of a single Unicode code point, as byte values. -/
def utf8EncodeCharNat (n : Nat) : List Nat :=
  if n < 128 then [n]
  else if n < 2048 then
    [192 ||| (n >>> 6), 128 ||| (n &&& 63)]
  else if n < 65536 then
    [224 ||| (n >>> 12), 128 ||| ((n >>> 6) &&& 63), 128 ||| (n &&& 63)]
  else
    [240 ||| (n >>> 18), 128 ||| ((n >>> 12) &&& 63), 128 ||| ((n >>> 6) &&& 63),
      128 ||| (n &&& 63)]

/-- The byte sequence of a string under UTF-8, modelling Python str.encode(). -/
def utf8Bytes (s : String) : List Nat :=
  s.data.flatMap (fun c => utf8EncodeCharNat c.toNat)

/-! ## SHA-256 (hashlib.sha256), FIPS 180-4, over Nat mod 2^32 -/

/-- 2^32, the word modulus. -/
def M32 : Nat := 4294967296

/-- Right rotation of a 32-bit word (input assumed < 2^32). -/
def rotr32 (k n : Nat) : Nat := ((n >>> k) ||| (n <<< (32 - k))) % M32

/-- Ch(x,y,z) = (x AND y) XOR ((NOT x) AND z); NOT via XOR with the 32-bit mask. -/
def shaCh (x y z : Nat) : Nat := (x &&& y) ^^^ ((x ^^^ 4294967295) &&& z)

/-- Maj(x,y,z). -/
def shaMaj (x y z : Nat) : Nat := (x &&& y) ^^^ (x &&& z) ^^^ (y &&& z)

/-- Big Sigma0. -/
def bsig0 (x : Nat) : Nat := rotr32 2 x ^^^ rotr32 13 x ^^^ rotr32 22 x

/-- Big Sigma1. -/
def bsig1 (x : Nat) : Nat := rotr32 6 x ^^^ rotr32 11 x ^^^ rotr32 25 x

/-- Small sigma0. -/
def ssig0 (x : Nat) : Nat := rotr32 7 x ^^^ rotr32 18 x ^^^ (x >>> 3)

/-- Small sigma1. -/
def ssig1 (x : Nat) : Nat := rotr32 17 x ^^^ rotr32 19 x ^^^ (x >>> 10)

/-- The 64 SHA-256 round constants (FIPS 180-4 4.2.2), written in decimal. -/
def shaK : List Nat :=
  [1116352408, 1899447441, 3049323471, 3921009573, 961987163, 1508970993,
   2453635748, 2870763221, 3624381080, 310598401, 607225278, 1426881987,
   1925078388, 2162078206, 2614888103, 3248222580, 3835390401, 4022224774,
   264347078, 604807628, 770255983, 1249150122, 1555081692, 1996064986,
   2554220882, 2821834349, 2952996808, 3210313671, 3336571891, 3584528711,
   113926993, 338241895, 666307205, 773529912, 1294757372, 1396182291,
   1695183700, 1986661051, 2177026350, 2456956037, 2730485921, 2820302411,
   3259730800, 3345764771, 3516065817, 3600352804, 4094571909, 275423344,
   430227734, 506948616, 659060556, 883997877, 958139571, 1322822218,
   1537002063, 1747873779, 1955562222, 2024104815, 2227730452, 2361852424,
   2428436474, 2756734187, 3204031479, 3329325298]

/-- The eight SHA-256 initial hash values (FIPS 180-4 5.3.3), in decimal. -/
def shaH0 : List Nat :=
  [1779033703, 3144134277, 1013904242, 2773480762,
   1359893119, 2600822924, 528734635, 1541459225]

/-- The 8-byte big-endian encoding of a length in bits. -/
def lenBytes64 (n : Nat) : List Nat :=
  (List.range 8).map (fun i => (n >>> (8 * (7 - i))) % 256)

/-- FIPS 180-4 5.1.1 padding: 0x80, zeros, then the 64-bit bit length. -/
def shaPad (msg : List Nat) : List Nat :=
  let L := msg.length
  let zeros := (64 - ((L + 9) % 64)) % 64
  msg ++ [128] ++ List.replicate zeros 0 ++ lenBytes64 (8 * L)

/-- Split a (padded) byte list into its 64-byte blocks. -/
def chunks64 (l : List Nat) : List (List Nat) :=
  (List.range (l.length / 64)).map (fun i => ((l.drop (64 * i)).take 64))

/-- The j-th big-endian 32-bit word of a 64-byte block. -/
def wordAt (blk : List Nat) (j : Nat) : Nat :=
  blk.getD (4 * j) 0 * 16777216 + blk.getD (4 * j + 1) 0 * 65536 +
    blk.getD (4 * j + 2) 0 * 256 + blk.getD (4 * j + 3) 0

/-- The 64-entry message schedule of a block. -/
def shaSchedule (blk : List Nat) : List Nat :=
  let w0 := (List.range 16).map (wordAt blk)
  (List.range 48).foldl
    (fun w _ =>
      let n := w.length
      w ++ [(ssig1 (w.getD (n - 2) 0) + w.getD (n - 7) 0 + ssig0 (w.getD (n - 15) 0) +
        w.getD (n - 16) 0) % M32])
    w0

/-- One compression round on the split state [a,b,c,d,e,f,g,h]. -/
def shaRound (w : List Nat) (st : List Nat) (i : Nat) : List Nat :=
  match st with
  | [a, b, c, d, e, f, g, h] =>
    let t1 := (h + bsig1 e + shaCh e f g + shaK.getD i 0 + w.getD i 0) % M32
    let t2 := (bsig0 a + shaMaj a b c) % M32
    [(t1 + t2) % M32, a, b, c, (d + t1) % M32, e, f, g]
  | st => st

/-- Compress one 64-byte block into the running 8-word state. -/
def shaCompress (hs : List Nat) (blk : List Nat) : List Nat :=
  let w := shaSchedule blk
  let fin := (List.range 64).foldl (shaRound w) hs
  (hs.zip fin).map (fun p => (p.1 + p.2) % M32)

/-- SHA-256 of a byte list, as the final eight 32-bit words. -/
def sha256Words (msg : List Nat) : List Nat :=
  (chunks64 (shaPad msg)).foldl shaCompress shaH0

/-- Lowercase hex digit for a value below 16. -/
def hexDigit (n : Nat) : Char :=
  if n < 10 then Char.ofNat (48 + n) else Char.ofNat (87 + n)

/-- The 8 lowercase hex characters of one 32-bit word, most significant first. -/
def wordHex (n : Nat) : List Char :=
  (List.range 8).map (fun i => hexDigit ((n >>> (4 * (7 - i))) % 16))

/-- The hexdigest of SHA-256 over a byte list: 64 lowercase hex characters. -/
def sha256hexBytes (msg : List Nat) : String :=
  String.mk ((sha256Words msg).flatMap wordHex)

/-- SHA-256 hexdigest of the UTF-8 bytes of a string. -/
def sha256hex (s : String) : String :=
  sha256hexBytes (utf8Bytes s)

/-- FIPS 180-4 test vector: the digest of the empty message. -/
theorem sha256hex_empty :
    sha256hex "" = "e3b0c44298fc1c149afbf4c8996fb92427ae41e4649b934ca495991b7852b855" := by
  decide

/-- FIPS 180-4 test vector: the digest of "abc". -/
theorem sha256hex_abc :
    sha256hex "abc" = "ba7816bf8f01cfea414140de5dae2223b00361a396177a9cb410ff61f20015ad" := by
  decide

/-! ## Data model (src/domain/user/dtos.py, src/settings.py, errors.py) -/

/-- Process-wide auth configuration (Settings in src/settings.py). The secret
key and the salt are required with no default; the remaining fields carry the
defaults HS256, 1440 minutes and "sub" but are environment-overridable, so
they stay universally quantified in the theorems. -/
structure Config where
  secretKey : String
  passwordSalt : String
  hashAlgorithm : String
  expireMinutes : Int
  usernameField : String
deriving DecidableEq

/-- UserDTO: the persisted user record (username, password_hash). -/
structure UserDTO where
  username : String
  password_hash : String
deriving DecidableEq

/-- CreateUserDTO: transient registration input. -/
structure CreateUserDTO where
  username : String
  password : String
deriving DecidableEq

/-- LoginUserDTO: transient login input. -/
structure LoginUserDTO where
  username : String
  password : String
deriving DecidableEq

/-- The domain error classes of src/domain/user/errors.py. -/
inductive UserError
  | alreadyExists
  | doesNotExist
  | invalidPassword
deriving DecidableEq

/-- The credential store contents: one record per user, in insertion order. -/
abbrev Store := List UserDTO

/-- find_by_username: the store lookup by primary key. -/
def findByUsername (st : Store) (username : String) : Option UserDTO :=
  st.find? (fun r => r.username == username)

/-- The domain-level contract of IUserRepo.create as implemented by
UserRepository: reject a duplicate username at write time, otherwise append
the record durably. -/
def repoCreate (st : Store) (u : UserDTO) : Except UserError UserDTO × Store :=
  if (findByUsername st u.username).isSome then (.error .alreadyExists, st)
  else (.ok u, st ++ [u])

/-! ## JWT (PyJWT), modelled at the contract level

A token carries its payload and a signature. Producing the signature requires
the signing key and the algorithm, so the signature is modelled as the triple
it authenticates: (key, algorithm, payload). Verification succeeds exactly
when the token's signature is the one the verifier would recompute, which is
the idealized (unforgeable-MAC) contract of jwt.encode/jwt.decode. -/

/-- A JSON claim value as used by this code: a string or an integer. -/
inductive ClaimVal
  | str (s : String)
  | int (n : Int)
deriving DecidableEq

/-- A decoded JWT payload: the claim set of the token. -/
abbrev Payload := List (String × ClaimVal)

/-- dict.get on a payload. -/
def payloadGet (p : Payload) (k : String) : Option ClaimVal :=
  (p.find? (fun kv => kv.1 == k)).map (fun kv => kv.2)

/-- A JWT as held by callers: payload plus the signature over it. -/
structure Token where
  payload : Payload
  sig : String × String × Payload
deriving DecidableEq

/-- jwt.encode: sign the payload with the key and algorithm. -/
def jwtEncode (cfg : Config) (p : Payload) : Token :=
  { payload := p, sig := (cfg.secretKey, cfg.hashAlgorithm, p) }

/-- The InvalidTokenError subclasses that this code path can see. -/
inductive JwtError
  | invalidSignature
  | expiredSignature
  | decodeError
deriving DecidableEq

/-- jwt.decode with the given key and algorithms=[cfg.hashAlgorithm]: verify
the signature, then the exp claim when present (exp must be an integer and
must still be in the future; PyJWT raises on exp <= now with zero leeway). -/
def jwtDecode (cfg : Config) (now : Int) (t : Token) : Except JwtError Payload :=
  if t.sig ≠ (cfg.secretKey, cfg.hashAlgorithm, t.payload) then .error .invalidSignature
  else
    match payloadGet t.payload "exp" with
    | some (.int e) => if e ≤ now then .error .expiredSignature else .ok t.payload
    | some (.str _) => .error .decodeError
    | none => .ok t.payload

/-- Helper predicate (spec side): the payload's exp claim, if any, is an
integer still in the future at the given instant. -/
def unexpired (p : Payload) (now : Int) : Bool :=
  match payloadGet p "exp" with
  | some (.int e) => now < e
  | some (.str _) => false
  | none => true

/-! ## The Account Authority (class User, src/domain/user/user.py) -/

/-- _get_password_hash: sha256 over password bytes concatenated with the
configured salt bytes, as a hexdigest. -/
def User.get_password_hash (cfg : Config) (password : String) : String :=
  sha256hexBytes (utf8Bytes password ++ utf8Bytes cfg.passwordSalt)

/-- _verify_password: recompute the digest of the supplied password and
compare with the stored hash. -/
def User.verify_password (cfg : Config) (passwordToCheck actualPasswordHash : String) : Bool :=
  User.get_password_hash cfg passwordToCheck == actualPasswordHash

/-- The token data dict built by _create_access_token:
a dict literal with the configured username field and then "exp", so a
username field literally named "exp" is overwritten by the expiry entry. -/
def User.token_data (cfg : Config) (now : Int) (username : String) : Payload :=
  if cfg.usernameField = "exp" then [("exp", .int (now + 60 * cfg.expireMinutes))]
  else [(cfg.usernameField, .str username), ("exp", .int (now + 60 * cfg.expireMinutes))]

/-- _create_access_token: sign the claims dict holding the username and an
expiry now + AUTH_ACCESS_TOKEN_EXPIRE_MINUTES. -/
def User.create_access_token (cfg : Config) (now : Int) (username : String) : Token :=
  jwtEncode cfg (User.token_data cfg now username)

/-- User.create: look up the username; if present raise
UserAlreadyExistsError, else hash the password and persist through the
repository. -/
def User.create (cfg : Config) (st : Store) (d : CreateUserDTO) :
    Except UserError UserDTO × Store :=
  match findByUsername st d.username with
  | some _ => (.error .alreadyExists, st)
  | none => repoCreate st ⟨d.username, User.get_password_hash cfg d.password⟩

/-- User.login: look up the username (absent: UserDoesNotExistError), verify
the password (mismatch: InvalidPasswordError), else return a fresh signed
access token. -/
def User.login (cfg : Config) (st : Store) (now : Int) (d : LoginUserDTO) :
    Except UserError Token × Store :=
  match findByUsername st d.username with
  | none => (.error .doesNotExist, st)
  | some u =>
    if User.verify_password cfg d.password u.password_hash
    then (.ok (User.create_access_token cfg now d.username), st)
    else (.error .invalidPassword, st)

/-- User.get_current: decode the token (any InvalidTokenError is caught and
re-raised as UserDoesNotExistError), read the username claim (a falsy value
- absent, empty string, integer zero - is rejected before any store access),
then look the user up. A non-string claim value matches no stored username,
since usernames are strings. -/
def User.get_current (cfg : Config) (st : Store) (now : Int) (t : Token) :
    Except UserError UserDTO × Store :=
  match jwtDecode cfg now t with
  | .error _ => (.error .doesNotExist, st)
  | .ok payload =>
    match payloadGet payload cfg.usernameField with
    | none => (.error .doesNotExist, st)
    | some (.int n) =>
      if n = 0 then (.error .doesNotExist, st) else (.error .doesNotExist, st)
    | some (.str s) =>
      if s = "" then (.error .doesNotExist, st)
      else
        match findByUsername st s with
        | none => (.error .doesNotExist, st)
        | some u => (.ok u, st)

/-! ## Transport boundary (src/app/auth/handlers.py) -/

/-- The LoginResponse schema. -/
structure LoginResponse where
  access_token : Token
  token_type : String
deriving DecidableEq

/-- How a handler call terminates: a response body, an HTTPException with a
status code and detail message, or a domain exception that no except clause
caught and that therefore escapes the handler. -/
inductive HandlerResult (α : Type)
  | ok (a : α)
  | httpError (status : Nat) (detail : String)
  | unhandled (e : UserError)
deriving DecidableEq

/-- oauth2_login: call User.login; an except clause for
UserAlreadyExistsError maps to 400 "User with this username does not
exist.", one for InvalidPasswordError maps to the 401 challenge; any other
domain error (in particular UserDoesNotExistError) has no except clause and
escapes. -/
def oauth2_login (cfg : Config) (st : Store) (now : Int) (username password : String) :
    HandlerResult LoginResponse × Store :=
  match User.login cfg st now ⟨username, password⟩ with
  | (.ok tok, st') => (.ok ⟨tok, "bearer"⟩, st')
  | (.error .alreadyExists, st') =>
    (.httpError 400 "User with this username does not exist.", st')
  | (.error .invalidPassword, st') =>
    (.httpError 401 "Incorrect username or password", st')
  | (.error e, st') => (.unhandled e, st')

/-- json_login: identical body to oauth2_login over the JSON schema. -/
def json_login (cfg : Config) (st : Store) (now : Int) (username password : String) :
    HandlerResult LoginResponse × Store :=
  match User.login cfg st now ⟨username, password⟩ with
  | (.ok tok, st') => (.ok ⟨tok, "bearer"⟩, st')
  | (.error .alreadyExists, st') =>
    (.httpError 400 "User with this username does not exist.", st')
  | (.error .invalidPassword, st') =>
    (.httpError 401 "Incorrect username or password", st')
  | (.error e, st') => (.unhandled e, st')

/-! ## The generic repository over a session (src/infra/base_repository.py) -/

/-- A unit-of-work session: the rows the store durably holds, plus the
entities merged into the session but not yet flushed. -/
structure SASession where
  persisted : Store
  pending : List UserDTO
deriving DecidableEq

/-- get_by_id reads through the session to the store (primary key lookup). -/
def sessionGetById (s : SASession) (username : String) : Option UserDTO :=
  findByUsername s.persisted username

/-- session.merge: coalesce with a pending entity of the same key, else add. -/
def sessionMerge (s : SASession) (u : UserDTO) : SASession :=
  ⟨s.persisted, (s.pending.filter (fun v => v.username != u.username)) ++ [u]⟩

/-- The store's write-time uniqueness check: a flush succeeds only when no
pending entity collides with a persisted primary key. -/
def flushAccepts (s : SASession) : Bool :=
  s.pending.all (fun u => (findByUsername s.persisted u.username).isNone)

/-- session.flush: push the pending entities to the store, or raise
IntegrityError on a duplicate key, leaving the writes unapplied. -/
def sessionFlush (s : SASession) : Except Unit SASession :=
  if flushAccepts s then .ok ⟨s.persisted ++ s.pending, []⟩
  else .error ()

/-- session.rollback: discard every pending entity. -/
def sessionRollback (s : SASession) : SASession :=
  ⟨s.persisted, []⟩

/-- BaseRepository.create: pre-check by primary key, merge, flush; an
IntegrityError from the flush is answered by a rollback and then the
configured already-exists exception (UserAlreadyExistsError here). -/
def baseRepoCreate (s : SASession) (dto : UserDTO) : Except UserError UserDTO × SASession :=
  match sessionGetById s dto.username with
  | some _ => (.error .alreadyExists, s)
  | none =>
    let s1 := sessionMerge s dto
    match sessionFlush s1 with
    | .ok s2 => (.ok dto, s2)
    | .error _ => (.error .alreadyExists, sessionRollback s1)

/-! ## Reachable credential-store states -/

/-- The store states reachable from the empty store using only the Account
Authority's three operations. -/
inductive Reachable (cfg : Config) : Store → Prop
  | empty : Reachable cfg []
  | create (st : Store) (d : CreateUserDTO) :
      Reachable cfg st → Reachable cfg (User.create cfg st d).2
  | login (st : Store) (now : Int) (d : LoginUserDTO) :
      Reachable cfg st → Reachable cfg (User.login cfg st now d).2
  | get_current (st : Store) (now : Int) (t : Token) :
      Reachable cfg st → Reachable cfg (User.get_current cfg st now t).2

/-! ## Store lemmas -/

/-- A record found under a username carries that username. -/
theorem findByUsername_of_some {st : Store} {u : String} {r : UserDTO}
    (h : findByUsername st u = some r) : r.username = u := by
  have hp := List.find?_some h
  simpa [beq_iff_eq] using hp

/-- Appending a record for a fresh username makes it findable. -/
theorem findByUsername_append_self {st : Store} {u : String} {r : UserDTO}
    (hn : findByUsername st u = none) (hr : r.username = u) :
    findByUsername (st ++ [r]) u = some r := by
  unfold findByUsername at *
  rw [List.find?_append, hn]
  simp [List.find?_cons, hr]

/-- login never changes the store. -/
theorem login_store_eq (cfg : Config) (st : Store) (now : Int) (d : LoginUserDTO) :
    (User.login cfg st now d).2 = st := by
  unfold User.login
  repeat' split
  all_goals rfl

/-- get_current never changes the store. -/
theorem get_current_store_eq (cfg : Config) (st : Store) (now : Int) (t : Token) :
    (User.get_current cfg st now t).2 = st := by
  unfold User.get_current
  repeat' split
  all_goals rfl

/-- When create succeeds it appends exactly the returned record. -/
theorem create_ok_store {cfg : Config} {st : Store} {d : CreateUserDTO} {r : UserDTO}
    (h : (User.create cfg st d).1 = .ok r) :
    r = ⟨d.username, User.get_password_hash cfg d.password⟩ ∧
      (User.create cfg st d).2 = st ++ [r] := by
  cases hf : findByUsername st d.username with
  | some u => simp [User.create, hf] at h
  | none =>
    have hr : r = ⟨d.username, User.get_password_hash cfg d.password⟩ := by
      have := h
      simp [User.create, repoCreate, hf] at this
      exact this.symm
    subst hr
    exact ⟨rfl, by simp [User.create, repoCreate, hf]⟩

/-- When create fails it leaves the store as it was. -/
theorem create_err_store {cfg : Config} {st : Store} {d : CreateUserDTO} {e : UserError}
    (h : (User.create cfg st d).1 = .error e) :
    (User.create cfg st d).2 = st := by
  cases hf : findByUsername st d.username with
  | some u => simp [User.create, hf]
  | none => simp [User.create, repoCreate, hf] at h

/-! ## JWT lemmas -/

/-- A successful decode returns the token's own payload and certifies the
signature and the expiry. -/
theorem jwtDecode_ok_facts {cfg : Config} {now : Int} {t : Token} {p : Payload}
    (h : jwtDecode cfg now t = .ok p) :
    p = t.payload ∧ t.sig = (cfg.secretKey, cfg.hashAlgorithm, t.payload) ∧
      unexpired t.payload now = true := by
  unfold jwtDecode at h
  split at h
  · simp at h
  · next hsig =>
    split at h
    · next e heq =>
      split at h
      · simp at h
      · next hlt =>
        simp at h
        refine ⟨h.symm, not_not.mp hsig, ?_⟩
        simp [unexpired, heq]
        omega
    · next s heq => simp at h
    · next heq =>
      simp at h
      exact ⟨h.symm, not_not.mp hsig, by simp [unexpired, heq]⟩

/-- A signature-valid token whose exp claim (if any) lies in the future
decodes successfully. -/
theorem jwtDecode_ok_of {cfg : Config} {now : Int} {t : Token}
    (hsig : t.sig = (cfg.secretKey, cfg.hashAlgorithm, t.payload))
    (hexp : unexpired t.payload now = true) :
    jwtDecode cfg now t = .ok t.payload := by
  unfold jwtDecode
  rw [if_neg (not_not_intro hsig)]
  unfold unexpired at hexp
  cases hx : payloadGet t.payload "exp" with
  | none => rfl
  | some v =>
    cases v with
    | str s => rw [hx] at hexp; simp at hexp
    | int e =>
      rw [hx] at hexp
      simp at hexp
      have hne : ¬ e ≤ now := by omega
      simp [hne]

/-! ## get_current case analysis -/

/-- Every error raised by get_current is UserDoesNotExistError. -/
theorem get_current_error_kind {cfg : Config} {st : Store} {now : Int} {t : Token}
    {e : UserError} (h : (User.get_current cfg st now t).1 = .error e) :
    e = .doesNotExist := by
  unfold User.get_current at h
  repeat' split at h
  all_goals simp_all

/-- A successful resolution certifies: the token decoded, the subject claim
is a non-empty string, and the store holds that username. -/
theorem get_current_ok_shape {cfg : Config} {st : Store} {now : Int} {t : Token}
    {u : UserDTO} (h : (User.get_current cfg st now t).1 = .ok u) :
    jwtDecode cfg now t = .ok t.payload ∧
      ∃ s, payloadGet t.payload cfg.usernameField = some (.str s) ∧ s ≠ "" ∧
        findByUsername st s = some u := by
  unfold User.get_current at h
  split at h
  · simp at h
  · next p hd =>
    have hp : p = t.payload := (jwtDecode_ok_facts hd).1
    subst hp
    refine ⟨hd, ?_⟩
    split at h
    · simp at h
    · split at h <;> simp at h
    · next s hs =>
      split at h
      · simp at h
      · next hne =>
        split at h
        · simp at h
        · next w hw =>
          simp at h
          exact ⟨s, hs, hne, by rw [hw, h]⟩

/-- If no record can come out, get_current lands on the NotFound error. -/
theorem get_current_not_ok {cfg : Config} {st : Store} {now : Int} {t : Token}
    (hno : ∀ u, (User.get_current cfg st now t).1 ≠ .ok u) :
    (User.get_current cfg st now t).1 = .error .doesNotExist := by
  cases hres : (User.get_current cfg st now t).1 with
  | ok u => exact absurd hres (hno u)
  | error e' => rw [← get_current_error_kind hres]

/-- A token whose signature does not verify resolves to NotFound. -/
theorem get_current_badsig {cfg : Config} {st : Store} {now : Int} {t : Token}
    (hsig : t.sig ≠ (cfg.secretKey, cfg.hashAlgorithm, t.payload)) :
    (User.get_current cfg st now t).1 = .error .doesNotExist := by
  have hd : jwtDecode cfg now t = .error .invalidSignature := by
    unfold jwtDecode; rw [if_pos hsig]
  simp [User.get_current, hd]

/-- A token whose exp claim is not an integer resolves to NotFound. -/
theorem get_current_malformed_exp {cfg : Config} {st : Store} {now : Int} {t : Token}
    {m : String} (hm : payloadGet t.payload "exp" = some (.str m)) :
    (User.get_current cfg st now t).1 = .error .doesNotExist := by
  refine get_current_not_ok (fun u hok => ?_)
  have hfacts := jwtDecode_ok_facts (get_current_ok_shape hok).1
  rw [unexpired, hm] at hfacts
  simp at hfacts

/-- An expired token resolves to NotFound even when everything else is valid. -/
theorem get_current_expired {cfg : Config} {st : Store} {now : Int} {t : Token}
    {x : Int} (hx : payloadGet t.payload "exp" = some (.int x)) (hle : x ≤ now) :
    (User.get_current cfg st now t).1 = .error .doesNotExist := by
  refine get_current_not_ok (fun u hok => ?_)
  have hfacts := jwtDecode_ok_facts (get_current_ok_shape hok).1
  rw [unexpired, hx] at hfacts
  have hlt := hfacts.2.2
  simp at hlt
  omega

/-- A token with no subject claim resolves to NotFound. -/
theorem get_current_no_subject {cfg : Config} {st : Store} {now : Int} {t : Token}
    (hn : payloadGet t.payload cfg.usernameField = none) :
    (User.get_current cfg st now t).1 = .error .doesNotExist := by
  refine get_current_not_ok (fun u hok => ?_)
  rcases (get_current_ok_shape hok).2 with ⟨s, hs, hne, hfind⟩
  rw [hn] at hs
  exact Option.noConfusion hs

/-- A token whose subject has no record resolves to NotFound. -/
theorem get_current_unknown_subject {cfg : Config} {st : Store} {now : Int} {t : Token}
    {s : String} (hs : payloadGet t.payload cfg.usernameField = some (.str s))
    (hf : findByUsername st s = none) :
    (User.get_current cfg st now t).1 = .error .doesNotExist := by
  refine get_current_not_ok (fun u hok => ?_)
  rcases (get_current_ok_shape hok).2 with ⟨s', hs', hne, hfind⟩
  rw [hs] at hs'
  have heq : s = s' := by
    have hv := Option.some.inj hs'
    exact ClaimVal.str.inj hv
  rw [← heq, hf] at hfind
  exact Option.noConfusion hfind

/-! ## Concrete fixtures for witnesses and counterexamples -/

/-- A concrete configuration: the two required secrets set, defaults for the
rest (HS256, 1440 minutes, subject claim "sub"). -/
def cfg0 : Config := ⟨"test-secret-key", "test-salt", "HS256", 1440, "sub"⟩

/-- A token whose signature was produced under a different key. -/
def tokForged : Token :=
  ⟨[("sub", ClaimVal.str "alice")], ("wrong-key", "HS256", [("sub", ClaimVal.str "alice")])⟩

/-- A well-signed, unexpired token whose subject claim is the empty string. -/
def tokEmptySub : Token :=
  jwtEncode cfg0 [("sub", ClaimVal.str ""), ("exp", ClaimVal.int 100)]

/-- A session caught between a stale pending write and the durable store. -/
def sess0 : SASession := ⟨[⟨"alice", "hash-a"⟩], [⟨"alice", "hash-b"⟩]⟩

/-- A one-user store with the digest the code would store for "p@ss". -/
def st1 : Store := [⟨"alice", User.get_password_hash cfg0 "p@ss"⟩]

/-! ## Claims -/

/-- C8: login and get_current leave the Credential Store unchanged for every
input - they read and verify only, and no token is ever persisted - while
register performs exactly one durable write (the single appended record) on
its success path. -/
theorem login_get_current_pure_register_writes_once (cfg : Config) (st : Store)
    (now : Int) (l : LoginUserDTO) (t : Token) (d : CreateUserDTO) (r : UserDTO)
    (h : (User.create cfg st d).1 = .ok r) :
    (User.login cfg st now l).2 = st ∧ (User.get_current cfg st now t).2 = st ∧
      (User.create cfg st d).2 = st ++ [r] :=
  ⟨login_store_eq cfg st now l, get_current_store_eq cfg st now t, (create_ok_store h).2⟩

/-- Witness for C8 at a concrete configuration, store and user. -/
theorem login_get_current_pure_register_writes_once_witness :
    (User.create cfg0 [] ⟨"alice", "p@ss"⟩).1 =
        .ok ⟨"alice", User.get_password_hash cfg0 "p@ss"⟩ ∧
      ((User.login cfg0 [] 0 ⟨"alice", "p@ss"⟩).2 = [] ∧
        (User.get_current cfg0 [] 0 tokForged).2 = [] ∧
        (User.create cfg0 [] ⟨"alice", "p@ss"⟩).2 =
          [] ++ [⟨"alice", User.get_password_hash cfg0 "p@ss"⟩]) :=
  ⟨rfl, login_get_current_pure_register_writes_once cfg0 [] 0 ⟨"alice", "p@ss"⟩ tokForged
    ⟨"alice", "p@ss"⟩ ⟨"alice", User.get_password_hash cfg0 "p@ss"⟩ rfl⟩

/-- C10: when the write-time uniqueness check rejects the flush with
IntegrityError, the session is rolled back (pending cleared) before
AlreadyExists is raised, and whenever create fails the persisted state
observable through the store is unchanged. -/
theorem base_repo_create_rollback (s : SASession) (dto : UserDTO) (e : UserError)
    (herr : (baseRepoCreate s dto).1 = .error e) :
    (baseRepoCreate s dto).2.persisted = s.persisted ∧
      (sessionGetById s dto.username = none → (baseRepoCreate s dto).2.pending = []) := by
  cases hf : sessionGetById s dto.username with
  | some u => simp [baseRepoCreate, hf]
  | none =>
    cases hfl : sessionFlush (sessionMerge s dto) with
    | ok s2 => simp [baseRepoCreate, hf, hfl] at herr
    | error v =>
      constructor
      · simp only [baseRepoCreate, hf]
        rw [hfl]
        simp [sessionRollback, sessionMerge]
      · intro _
        simp only [baseRepoCreate, hf]
        rw [hfl]
        simp [sessionRollback]

/-- Witness for C10: the pre-check passes, the flush hits the uniqueness
violation left by a stale pending write, and the rollback fires. -/
theorem base_repo_create_rollback_witness :
    (baseRepoCreate sess0 ⟨"bob", "hash-c"⟩).1 = .error .alreadyExists ∧
      ((baseRepoCreate sess0 ⟨"bob", "hash-c"⟩).2.persisted = sess0.persisted ∧
        (sessionGetById sess0 "bob" = none →
          (baseRepoCreate sess0 ⟨"bob", "hash-c"⟩).2.pending = [])) :=
  ⟨rfl, base_repo_create_rollback sess0 ⟨"bob", "hash-c"⟩ .alreadyExists rfl⟩

/-- C6 (the code as written): a login whose username has no record raises
UserDoesNotExistError, and the login handlers have no except clause for it -
they catch UserAlreadyExistsError (which login never raises) instead - so
the domain error escapes unhandled rather than being answered with the
generic authentication challenge. -/
theorem login_handlers_unknown_user_escapes :
    oauth2_login cfg0 [] 0 "nobody" "pw" = (.unhandled .doesNotExist, []) ∧
      json_login cfg0 [] 0 "nobody" "pw" = (.unhandled .doesNotExist, []) :=
  ⟨rfl, rfl⟩

/-- Registering a username that the store already holds fails. -/
theorem create_existing {cfg : Config} {st : Store} {U : String} {u : UserDTO}
    (h : findByUsername st U = some u) (Pother : String) :
    (User.create cfg st ⟨U, Pother⟩).1 = .error .alreadyExists := by
  simp [User.create, h]

/-- C1: when no record for U exists, register(U,P) succeeds and stores the
record for U; afterwards any second register of U fails with AlreadyExists,
and login(U,P) succeeds and returns the signed access token. -/
theorem register_once_then_login (cfg : Config) (st : Store) (U P Pother : String)
    (now : Int) (hfree : findByUsername st U = none) :
    (User.create cfg st ⟨U, P⟩).1 = .ok ⟨U, User.get_password_hash cfg P⟩ ∧
      findByUsername (User.create cfg st ⟨U, P⟩).2 U =
        some ⟨U, User.get_password_hash cfg P⟩ ∧
      (User.create cfg (User.create cfg st ⟨U, P⟩).2 ⟨U, Pother⟩).1 =
        .error .alreadyExists ∧
      (User.login cfg (User.create cfg st ⟨U, P⟩).2 now ⟨U, P⟩).1 =
        .ok (User.create_access_token cfg now U) := by
  have h1 : (User.create cfg st ⟨U, P⟩).1 = .ok ⟨U, User.get_password_hash cfg P⟩ := by
    simp [User.create, repoCreate, hfree]
  have hst : (User.create cfg st ⟨U, P⟩).2 = st ++ [⟨U, User.get_password_hash cfg P⟩] := by
    simp [User.create, repoCreate, hfree]
  have h2 : findByUsername (User.create cfg st ⟨U, P⟩).2 U =
      some ⟨U, User.get_password_hash cfg P⟩ := by
    rw [hst]
    exact findByUsername_append_self hfree rfl
  refine ⟨h1, h2, create_existing h2 Pother, ?_⟩
  simp [User.login, h2, User.verify_password]

/-- Witness for C1: register then re-register then login for alice. -/
theorem register_once_then_login_witness :
    findByUsername [] "alice" = none ∧
      ((User.create cfg0 [] ⟨"alice", "p@ss"⟩).1 =
          .ok ⟨"alice", User.get_password_hash cfg0 "p@ss"⟩ ∧
        findByUsername (User.create cfg0 [] ⟨"alice", "p@ss"⟩).2 "alice" =
          some ⟨"alice", User.get_password_hash cfg0 "p@ss"⟩ ∧
        (User.create cfg0 (User.create cfg0 [] ⟨"alice", "p@ss"⟩).2 ⟨"alice", "other"⟩).1 =
          .error .alreadyExists ∧
        (User.login cfg0 (User.create cfg0 [] ⟨"alice", "p@ss"⟩).2 0 ⟨"alice", "p@ss"⟩).1 =
          .ok (User.create_access_token cfg0 0 "alice")) :=
  ⟨rfl, register_once_then_login cfg0 [] "alice" "p@ss" "other" 0 rfl⟩

/-- C3: the three login outcomes. No record: NotFound. Record present but
the recomputed digest of the supplied password differs from the stored
hash: InvalidCredentials. Digest matches exactly: success, and the signed
token carries exactly the claims subjectField: U and exp: now + tokenTTL
(stated for a subject-claim name other than the reserved "exp"). -/
theorem login_outcomes (cfg : Config) (st : Store) (now : Int) (U P : String)
    (u : UserDTO) (hfield : cfg.usernameField ≠ "exp") :
    (findByUsername st U = none →
      (User.login cfg st now ⟨U, P⟩).1 = .error .doesNotExist) ∧
    (findByUsername st U = some u → User.get_password_hash cfg P ≠ u.password_hash →
      (User.login cfg st now ⟨U, P⟩).1 = .error .invalidPassword) ∧
    (findByUsername st U = some u → User.get_password_hash cfg P = u.password_hash →
      (User.login cfg st now ⟨U, P⟩).1 =
        .ok ⟨[(cfg.usernameField, .str U), ("exp", .int (now + 60 * cfg.expireMinutes))],
          (cfg.secretKey, cfg.hashAlgorithm,
            [(cfg.usernameField, .str U), ("exp", .int (now + 60 * cfg.expireMinutes))])⟩) := by
  refine ⟨?_, ?_, ?_⟩
  · intro h
    simp [User.login, h]
  · intro h hne
    have hb : (User.get_password_hash cfg P == u.password_hash) = false := by
      simp [hne]
    simp [User.login, h, User.verify_password, hb]
  · intro h heq
    have hb : (User.get_password_hash cfg P == u.password_hash) = true := by
      simp [heq]
    simp [User.login, h, User.verify_password, hb, User.create_access_token, jwtEncode,
      User.token_data, hfield]

/-- Witness for C3 at a store holding alice with the digest of "p@ss". -/
theorem login_outcomes_witness :
    cfg0.usernameField ≠ "exp" ∧
      ((findByUsername st1 "alice" = none →
        (User.login cfg0 st1 0 ⟨"alice", "p@ss"⟩).1 = .error .doesNotExist) ∧
      (findByUsername st1 "alice" = some ⟨"alice", User.get_password_hash cfg0 "p@ss"⟩ →
        User.get_password_hash cfg0 "p@ss" ≠
          (⟨"alice", User.get_password_hash cfg0 "p@ss"⟩ : UserDTO).password_hash →
        (User.login cfg0 st1 0 ⟨"alice", "p@ss"⟩).1 = .error .invalidPassword) ∧
      (findByUsername st1 "alice" = some ⟨"alice", User.get_password_hash cfg0 "p@ss"⟩ →
        User.get_password_hash cfg0 "p@ss" =
          (⟨"alice", User.get_password_hash cfg0 "p@ss"⟩ : UserDTO).password_hash →
        (User.login cfg0 st1 0 ⟨"alice", "p@ss"⟩).1 =
          .ok ⟨[(cfg0.usernameField, .str "alice"),
              ("exp", .int (0 + 60 * cfg0.expireMinutes))],
            (cfg0.secretKey, cfg0.hashAlgorithm,
              [(cfg0.usernameField, .str "alice"),
                ("exp", .int (0 + 60 * cfg0.expireMinutes))])⟩)) :=
  ⟨by decide,
    login_outcomes cfg0 st1 0 "alice" "p@ss" ⟨"alice", User.get_password_hash cfg0 "p@ss"⟩
      (by decide)⟩

/-- C4: get_current fails with the single outward kind NotFound
(UserDoesNotExistError) in every failure case - invalid signature,
malformed token (a non-integer exp claim), expired token, missing subject
claim, unknown subject - and no other error kind is ever produced. -/
theorem get_current_single_error_kind (cfg : Config) (st : Store) (now : Int)
    (t : Token) (e : UserError) (s m : String) (x : Int) :
    ((User.get_current cfg st now t).1 = .error e → e = .doesNotExist) ∧
    (t.sig ≠ (cfg.secretKey, cfg.hashAlgorithm, t.payload) →
      (User.get_current cfg st now t).1 = .error .doesNotExist) ∧
    (payloadGet t.payload "exp" = some (.str m) →
      (User.get_current cfg st now t).1 = .error .doesNotExist) ∧
    (payloadGet t.payload "exp" = some (.int x) → x ≤ now →
      (User.get_current cfg st now t).1 = .error .doesNotExist) ∧
    (payloadGet t.payload cfg.usernameField = none →
      (User.get_current cfg st now t).1 = .error .doesNotExist) ∧
    (payloadGet t.payload cfg.usernameField = some (.str s) →
      findByUsername st s = none →
      (User.get_current cfg st now t).1 = .error .doesNotExist) :=
  ⟨fun h => get_current_error_kind h,
   fun hsig => get_current_badsig hsig,
   fun hm => get_current_malformed_exp hm,
   fun hx hle => get_current_expired hx hle,
   fun hn => get_current_no_subject hn,
   fun hs hf => get_current_unknown_subject hs hf⟩

/-- Witness for C4: a concretely forged token over the empty store. -/
theorem get_current_single_error_kind_witness :
    tokForged.sig ≠ (cfg0.secretKey, cfg0.hashAlgorithm, tokForged.payload) ∧
      (((User.get_current cfg0 [] 0 tokForged).1 = .error .doesNotExist →
          UserError.doesNotExist = .doesNotExist) ∧
        (tokForged.sig ≠ (cfg0.secretKey, cfg0.hashAlgorithm, tokForged.payload) →
          (User.get_current cfg0 [] 0 tokForged).1 = .error .doesNotExist) ∧
        (payloadGet tokForged.payload "exp" = some (.str "not-an-int") →
          (User.get_current cfg0 [] 0 tokForged).1 = .error .doesNotExist) ∧
        (payloadGet tokForged.payload "exp" = some (.int (-5)) → (-5 : Int) ≤ 0 →
          (User.get_current cfg0 [] 0 tokForged).1 = .error .doesNotExist) ∧
        (payloadGet tokForged.payload cfg0.usernameField = none →
          (User.get_current cfg0 [] 0 tokForged).1 = .error .doesNotExist) ∧
        (payloadGet tokForged.payload cfg0.usernameField = some (.str "ghost") →
          findByUsername [] "ghost" = none →
          (User.get_current cfg0 [] 0 tokForged).1 = .error .doesNotExist)) :=
  ⟨by decide,
    get_current_single_error_kind cfg0 [] 0 tokForged .doesNotExist "ghost" "not-an-int" (-5)⟩

/-- C9: a token with a verified signature and an unexpired (or absent) exp
claim whose subject claim is present but equal to the empty string resolves
to NotFound for every store state - the falsy-value check rejects it before
the Credential Store is consulted - and in general no successful resolution
ever returns a record with the empty username, so a record stored under the
empty username is unreachable from any token. -/
theorem get_current_empty_subject (cfg : Config) (st : Store) (now : Int)
    (t t' : Token) (u : UserDTO)
    (hsig : t.sig = (cfg.secretKey, cfg.hashAlgorithm, t.payload))
    (hexp : unexpired t.payload now = true)
    (hsub : payloadGet t.payload cfg.usernameField = some (.str "")) :
    (User.get_current cfg st now t).1 = .error .doesNotExist ∧
      ((User.get_current cfg st now t').1 = .ok u → u.username ≠ "") := by
  constructor
  · have hd := jwtDecode_ok_of hsig hexp
    simp [User.get_current, hd, hsub]
  · intro hok
    rcases (get_current_ok_shape hok).2 with ⟨s, hs, hne, hfind⟩
    rw [findByUsername_of_some hfind]
    exact hne

/-- Witness for C9: a well-signed empty-subject token against a store that
does hold a record under the empty username. -/
theorem get_current_empty_subject_witness :
    tokEmptySub.sig = (cfg0.secretKey, cfg0.hashAlgorithm, tokEmptySub.payload) ∧
      unexpired tokEmptySub.payload 0 = true ∧
      payloadGet tokEmptySub.payload cfg0.usernameField = some (.str "") ∧
      ((User.get_current cfg0 [⟨"", "stored-hash"⟩] 0 tokEmptySub).1 =
          .error .doesNotExist ∧
        ((User.get_current cfg0 [⟨"", "stored-hash"⟩] 0 tokEmptySub).1 =
            .ok ⟨"", "stored-hash"⟩ → (⟨"", "stored-hash"⟩ : UserDTO).username ≠ "")) :=
  ⟨by decide, by decide, by decide,
    get_current_empty_subject cfg0 [⟨"", "stored-hash"⟩] 0 tokEmptySub tokEmptySub
      ⟨"", "stored-hash"⟩ (by decide) (by decide) (by decide)⟩

/-- The token data built by _create_access_token carries the exp claim. -/
theorem token_data_exp (cfg : Config) (now : Int) (U : String)
    (hfield : cfg.usernameField ≠ "exp") :
    payloadGet (User.token_data cfg now U) "exp" =
      some (.int (now + 60 * cfg.expireMinutes)) := by
  unfold User.token_data payloadGet
  rw [if_neg hfield]
  rw [List.find?_cons_of_neg _ (by simpa using hfield)]
  rw [List.find?_cons_of_pos _ (by simp)]
  rfl

/-- The token data built by _create_access_token carries the subject claim. -/
theorem token_data_sub (cfg : Config) (now : Int) (U : String)
    (hfield : cfg.usernameField ≠ "exp") :
    payloadGet (User.token_data cfg now U) cfg.usernameField = some (.str U) := by
  unfold User.token_data payloadGet
  rw [if_neg hfield]
  rw [List.find?_cons_of_pos _ (by simp)]
  rfl

/-- C2 (amended): for every registered user whose username is non-empty, the
token issued by login resolves - before its expiry, with the subject-claim
name not the reserved "exp" - to the stored record carrying that username;
and a token with a forged or altered signature, or one whose subject claim
names a username with no record in the store, fails with NotFound. -/
theorem token_validity (cfg : Config) (st : Store) (now nowv : Int)
    (U P : String) (u : UserDTO) (t' : Token) (s' : String)
    (hfield : cfg.usernameField ≠ "exp") (hU : U ≠ "")
    (hfind : findByUsername st U = some u)
    (hpw : User.get_password_hash cfg P = u.password_hash)
    (hfresh : nowv < now + 60 * cfg.expireMinutes) :
    (User.login cfg st now ⟨U, P⟩).1 = .ok (User.create_access_token cfg now U) ∧
      (User.get_current cfg st nowv (User.create_access_token cfg now U)).1 = .ok u ∧
      u.username = U ∧
      (t'.sig ≠ (cfg.secretKey, cfg.hashAlgorithm, t'.payload) →
        (User.get_current cfg st nowv t').1 = .error .doesNotExist) ∧
      (payloadGet t'.payload cfg.usernameField = some (.str s') →
        findByUsername st s' = none →
        (User.get_current cfg st nowv t').1 = .error .doesNotExist) := by
  have hb : (User.get_password_hash cfg P == u.password_hash) = true := by simp [hpw]
  have hlogin : (User.login cfg st now ⟨U, P⟩).1 =
      .ok (User.create_access_token cfg now U) := by
    simp [User.login, hfind, User.verify_password, hb]
  have hdec : jwtDecode cfg nowv (User.create_access_token cfg now U) =
      .ok (User.create_access_token cfg now U).payload := by
    apply jwtDecode_ok_of
    · rfl
    · show unexpired (User.token_data cfg now U) nowv = true
      unfold unexpired
      rw [token_data_exp cfg now U hfield]
      simp
      omega
  have hres : (User.get_current cfg st nowv (User.create_access_token cfg now U)).1 =
      .ok u := by
    unfold User.get_current
    rw [hdec]
    show (match payloadGet (User.token_data cfg now U) cfg.usernameField with
      | none => (Except.error UserError.doesNotExist, st)
      | some (ClaimVal.int n) =>
        if n = 0 then (Except.error UserError.doesNotExist, st)
        else (Except.error UserError.doesNotExist, st)
      | some (ClaimVal.str s) =>
        if s = "" then (Except.error UserError.doesNotExist, st)
        else
          match findByUsername st s with
          | none => (Except.error UserError.doesNotExist, st)
          | some u => (Except.ok u, st)).1 = Except.ok u
    rw [token_data_sub cfg now U hfield]
    simp [hU, hfind]
  exact ⟨hlogin, hres, findByUsername_of_some hfind,
    fun hsig => get_current_badsig hsig,
    fun hs hf => get_current_unknown_subject hs hf⟩

/-- Witness for C2 (amended) at the alice store with a fresh token and a
concretely forged token. -/
theorem token_validity_witness :
    cfg0.usernameField ≠ "exp" ∧ "alice" ≠ "" ∧
      findByUsername st1 "alice" = some ⟨"alice", User.get_password_hash cfg0 "p@ss"⟩ ∧
      (0 : Int) < 0 + 60 * cfg0.expireMinutes ∧
      ((User.login cfg0 st1 0 ⟨"alice", "p@ss"⟩).1 =
          .ok (User.create_access_token cfg0 0 "alice") ∧
        (User.get_current cfg0 st1 0 (User.create_access_token cfg0 0 "alice")).1 =
          .ok ⟨"alice", User.get_password_hash cfg0 "p@ss"⟩ ∧
        (⟨"alice", User.get_password_hash cfg0 "p@ss"⟩ : UserDTO).username = "alice" ∧
        (tokForged.sig ≠ (cfg0.secretKey, cfg0.hashAlgorithm, tokForged.payload) →
          (User.get_current cfg0 st1 0 tokForged).1 = .error .doesNotExist) ∧
        (payloadGet tokForged.payload cfg0.usernameField = some (.str "ghost") →
          findByUsername st1 "ghost" = none →
          (User.get_current cfg0 st1 0 tokForged).1 = .error .doesNotExist)) :=
  ⟨by decide, by decide, rfl, by decide,
    token_validity cfg0 st1 0 0 "alice" "p@ss" ⟨"alice", User.get_password_hash cfg0 "p@ss"⟩
      tokForged "ghost" (by decide) (by decide) rfl rfl (by decide)⟩

/-- C2 counterexample: the empty username is registrable, login("") then
succeeds and issues a token, but resolving that very token fails with
NotFound instead of returning the stored record - the claim fails for a
registered user whose username is the empty string. -/
theorem token_validity_cex :
    (User.create cfg0 [] ⟨"", "p@ss"⟩).1 = .ok ⟨"", User.get_password_hash cfg0 "p@ss"⟩ ∧
      (User.login cfg0 (User.create cfg0 [] ⟨"", "p@ss"⟩).2 0 ⟨"", "p@ss"⟩).1 =
        .ok (User.create_access_token cfg0 0 "") ∧
      (User.get_current cfg0 (User.create cfg0 [] ⟨"", "p@ss"⟩).2 0
          (User.create_access_token cfg0 0 "")).1 = .error .doesNotExist :=
  ⟨rfl, rfl, rfl⟩

/-- Every record of a reachable store was written by register: it carries
exactly the username supplied at registration and the salted digest of the
registered password. -/
theorem reachable_records_aux (cfg : Config) (st : Store) (h : Reachable cfg st) :
    ∀ r ∈ st, ∃ d : CreateUserDTO,
      r = ⟨d.username, User.get_password_hash cfg d.password⟩ := by
  induction h with
  | empty => intro r hmem; simp at hmem
  | create st' d hr ih =>
    intro r hmem
    rcases hres : (User.create cfg st' d).1 with e | r'
    · rw [create_err_store hres] at hmem
      exact ih r hmem
    · rcases create_ok_store hres with ⟨hr', hst⟩
      rw [hst] at hmem
      rcases List.mem_append.mp hmem with hm | hm
      · exact ih r hm
      · simp at hm
        subst hm
        exact ⟨d, hr'⟩
  | login st' now d hr ih =>
    intro r hmem
    rw [login_store_eq] at hmem
    exact ih r hmem
  | get_current st' now t hr ih =>
    intro r hmem
    rw [get_current_store_eq] at hmem
    exact ih r hmem

/-- C7 (amended): register performs no username validation, so a stored
record's username may be the empty string; what does hold of every
reachable store is that each record was persisted by some register call
with exactly that username and the salted digest of its password. -/
theorem reachable_records_are_registered (cfg : Config) (st : Store) (r : UserDTO)
    (h : Reachable cfg st) (hmem : r ∈ st) :
    ∃ d : CreateUserDTO, r = ⟨d.username, User.get_password_hash cfg d.password⟩ :=
  reachable_records_aux cfg st h r hmem

/-- Witness for C7 (amended): the store reached by registering alice. -/
theorem reachable_records_are_registered_witness :
    Reachable cfg0 (User.create cfg0 [] ⟨"alice", "p@ss"⟩).2 ∧
      (⟨"alice", User.get_password_hash cfg0 "p@ss"⟩ : UserDTO) ∈
        (User.create cfg0 [] ⟨"alice", "p@ss"⟩).2 ∧
      ∃ d : CreateUserDTO, (⟨"alice", User.get_password_hash cfg0 "p@ss"⟩ : UserDTO) =
        ⟨d.username, User.get_password_hash cfg0 d.password⟩ :=
  ⟨Reachable.create [] ⟨"alice", "p@ss"⟩ Reachable.empty,
    by simp [User.create, repoCreate, findByUsername],
    reachable_records_are_registered cfg0 (User.create cfg0 [] ⟨"alice", "p@ss"⟩).2
      ⟨"alice", User.get_password_hash cfg0 "p@ss"⟩
      (Reachable.create [] ⟨"alice", "p@ss"⟩ Reachable.empty)
      (by simp [User.create, repoCreate, findByUsername])⟩

/-- C7 counterexample: a single register call from the empty store reaches a
store whose one record has the empty string as its username. -/
theorem nonempty_username_cex :
    Reachable cfg0 (User.create cfg0 [] ⟨"", "p@ss"⟩).2 ∧
      ((User.create cfg0 [] ⟨"", "p@ss"⟩).2).map (fun r => r.username) = [""] :=
  ⟨Reachable.create [] ⟨"", "p@ss"⟩ Reachable.empty, rfl⟩
